import Mathlib

/-!
Shallow embedding of the authentication core of the contacts-management
backend (`src/services/auth.py`, with the `User` entity of
`src/entity/models.py`).  Timestamps (`datetime.utcnow()`, `timedelta`)
are modelled as integer seconds; the current time is an explicit `now`
parameter.  The configured secret key and algorithm
(`Auth.SECRET_KEY`, `Auth.ALGORITHM`) are explicit parameters.
-/

deriving instance DecidableEq for Except

namespace HW12

/-- Claim values stored in a token payload: the service only ever puts in
or reads out strings and integer timestamps. -/
inductive JVal where
  | str (s : String)
  | int (n : Int)
deriving DecidableEq, Repr

/-- A Python `dict` with string keys, as an insertion-ordered association
list with unique keys. -/
abbrev Dict := List (String × JVal)

/-- `d.get(k)` of a Python dict: the (unique) binding of `k`, if present. -/
def dget : Dict → String → Option JVal
  | [], _ => none
  | (k', v) :: d, k => if k' = k then some v else dget d k

/-- Assigning one key of a Python dict: replaces the existing binding in
place, or appends a new one. -/
def dset : Dict → String → JVal → Dict
  | [], k, v => [(k, v)]
  | (k', v') :: d, k, v =>
    if k' = k then (k, v) :: d else (k', v') :: dset d k v

/-- `d.update(u)`: assigns every binding of `u`, in order. -/
def dupdate (d : Dict) (u : List (String × JVal)) : Dict :=
  u.foldl (fun acc kv => dset acc kv.1 kv.2) d

/-- A JWT string as seen through the `jose` codec, modelled symbolically:
a string produced by `jwt.encode` determines its payload, signing key and
algorithm; every other string (malformed, tampered or forged) is
`garbage`. -/
inductive Token where
  | signed (payload : Dict) (key : String) (alg : String)
  | garbage (s : String)
deriving DecidableEq, Repr

/-- The codec-level failures `jose` raises, all subclasses of `JWTError`. -/
inductive JWTError where
  | invalid
  | expired
deriving DecidableEq, Repr

/-- `jose.jwt.encode(claims, key, algorithm=alg)`. -/
def jwt_encode (claims : Dict) (key alg : String) : Token :=
  .signed claims key alg

/-- `jose.jwt.decode(token, key, algorithms=[alg])` evaluated at time
`now`: verifies the signature (the key and algorithm must be the ones the
token was signed with), then rejects the token as expired when its `exp`
claim is in the past (`exp < now`), as the library does by default; an
`exp` claim that is not interpretable as an integer is rejected as a
claims error.  All rejections are `JWTError`s. -/
def jwt_decode (token : Token) (key alg : String) (now : Int) :
    Except JWTError Dict :=
  match token with
  | .garbage _ => .error .invalid
  | .signed payload k a =>
    if k = key ∧ a = alg then
      match dget payload "exp" with
      | none => .ok payload
      | some (.int e) => if e < now then .error .expired else .ok payload
      | some (.str s) =>
        match s.toInt? with
        | some e => if e < now then .error .expired else .ok payload
        | none => .error .invalid
    else .error .invalid

/-- `fastapi.HTTPException`, restricted to the fields the service sets. -/
structure HTTPException where
  status_code : Nat
  detail : String
  headers : List (String × String)
deriving DecidableEq, Repr

/-- The `users` entity of `src/entity/models.py` (persistence-managed
columns `created_at`/`updated_at` and the `contacts` relationship are
collaborator concerns and omitted). -/
structure User where
  id : Nat
  username : String
  email : String
  password : String
  refresh_token : Option String
deriving DecidableEq, Repr

/-- Default access-token ttl: `timedelta(minutes=15)` in seconds. -/
def accessDefaultTtl : Int := 15 * 60

/-- Default refresh-token ttl: `timedelta(days=15)` in seconds. -/
def refreshDefaultTtl : Int := 15 * 24 * 60 * 60

/-- The Python expression `expires_delta if expires_delta else dflt`:
`None` and the falsy `timedelta(0)` both select the default. -/
def ttlOr (expires_delta : Option Int) (dflt : Int) : Int :=
  match expires_delta with
  | some d => if d = 0 then dflt else d
  | none => dflt

/-- `Auth.create_access_token(data, expires_delta)` at time `now` under
the configured key and algorithm.  The second component of the result is
the caller's `data` dict after the call: the code mutates only
`data.copy()`, so the embedding returns the argument's post-call state
explicitly. -/
def create_access_token (key alg : String) (now : Int) (data : Dict)
    (expires_delta : Option Int) : Token × Dict :=
  let to_encode := data
  let expire := now + ttlOr expires_delta accessDefaultTtl
  let to_encode := dupdate to_encode
    [("iat", .int now), ("exp", .int expire), ("scope", .str "access_token")]
  (jwt_encode to_encode key alg, data)

/-- `Auth.create_refresh_token(data, expires_delta)` at time `now`;
identical to `create_access_token` except for the scope value and the
default ttl of `timedelta(days=15)`. -/
def create_refresh_token (key alg : String) (now : Int) (data : Dict)
    (expires_delta : Option Int) : Token × Dict :=
  let to_encode := data
  let expire := now + ttlOr expires_delta refreshDefaultTtl
  let to_encode := dupdate to_encode
    [("iat", .int now), ("exp", .int expire), ("scope", .str "refresh_token")]
  (jwt_encode to_encode key alg, data)

/-- `Auth.decode_refresh_token(refresh_token)` at time `now`.  The
`HTTPException`s raised inside the `try` block are not `JWTError`s, so
they propagate past the `except JWTError` handler. -/
def decode_refresh_token (key alg : String) (now : Int)
    (refresh_token : Token) : Except HTTPException JVal :=
  match jwt_decode refresh_token key alg now with
  | .ok payload =>
    if dget payload "scope" = some (.str "refresh_token") then
      match dget payload "sub" with
      | none => .error ⟨401, "Invalid token payload", []⟩
      | some email => .ok email
    else .error ⟨401, "Invalid scope for token", []⟩
  | .error _ => .error ⟨401, "Could not validate credentials", []⟩

/-- The `credentials_exception` built at the top of
`Auth.get_current_user`. -/
def credentials_exception : HTTPException :=
  ⟨401, "Could not validate credentials", [("WWW-Authenticate", "Bearer")]⟩

/-- `Auth.get_current_user(token, db)` at time `now`;
`get_user_by_email` is the injected user-lookup collaborator
(`src.repository.users.get_user_by_email` over the db session).  The
lookup is the only collaborator call; the function performs no writes. -/
def get_current_user (key alg : String) (now : Int)
    (get_user_by_email : JVal → Option User) (token : Token) :
    Except HTTPException User :=
  match jwt_decode token key alg now with
  | .ok payload =>
    if dget payload "scope" = some (.str "access_token") then
      match dget payload "sub" with
      | none => .error credentials_exception
      | some email =>
        match get_user_by_email email with
        | none => .error credentials_exception
        | some user => .ok user
    else .error credentials_exception
  | .error _ => .error credentials_exception

/-- Modelled from the spec: the external `passlib`
`CryptContext(schemes=["bcrypt"])` hasher behind `Auth.verify_password`
and `Auth.get_password_hash` — a salted adaptive hash is abstracted as a
record of the hashed password together with the fresh salt drawn at
hashing time; verification re-derives the hash from the candidate
password and the embedded salt and compares, never reconstructing the
plaintext. -/
structure PasswordHash where
  of : String
  salt : Nat
deriving DecidableEq, Repr

/-- `pwd_context.hash(password)`; `salt` is the fresh salt the backend
draws for this call. -/
def pwd_context_hash (password : String) (salt : Nat) : PasswordHash :=
  ⟨password, salt⟩

/-- `pwd_context.verify(plain, hashed)`. -/
def pwd_context_verify (password : String) (h : PasswordHash) : Bool :=
  password = h.of

/-- `Auth.verify_password(plain_password, hashed_password)`. -/
def verify_password (plain_password : String)
    (hashed_password : PasswordHash) : Bool :=
  pwd_context_verify plain_password hashed_password

/-- `Auth.get_password_hash(password)` (`salt` is the fresh salt of this
call). -/
def get_password_hash (password : String) (salt : Nat) : PasswordHash :=
  pwd_context_hash password salt

/-- `Auth.decode_refresh_token` as invoked while the `User.refresh_token`
column of the relevant user record holds `stored_refresh_token`
(possibly cleared).  The source reads no database state during
refresh-token validation, so the stored value is not an input of the
computation. -/
def decode_refresh_token_with_store (stored_refresh_token : Option String)
    (key alg : String) (now : Int) (tok : Token) :
    Except HTTPException JVal :=
  decode_refresh_token key alg now tok

/-! Association-list (Python dict) lemmas. -/

theorem dget_dset_self (d : Dict) (k : String) (v : JVal) :
    dget (dset d k v) k = some v := by
  induction d with
  | nil => simp [dget, dset]
  | cons kv d ih =>
    obtain ⟨k', v'⟩ := kv
    by_cases h : k' = k <;> simp [dset, dget, h, ih]

theorem dget_dset_ne (d : Dict) (k k' : String) (v : JVal) (h : k ≠ k') :
    dget (dset d k v) k' = dget d k' := by
  induction d with
  | nil => simp [dget, dset, h]
  | cons kv d ih =>
    obtain ⟨k1, v1⟩ := kv
    by_cases h1 : k1 = k <;> by_cases h2 : k1 = k' <;>
      simp_all [dset, dget]

theorem dget_update3_iat (d : Dict) (now expire : Int) (sc : String) :
    dget (dupdate d
      [("iat", .int now), ("exp", .int expire), ("scope", .str sc)]) "iat"
      = some (.int now) := by
  show dget (dset (dset (dset d "iat" (.int now)) "exp" (.int expire))
    "scope" (.str sc)) "iat" = some (.int now)
  rw [dget_dset_ne _ _ _ _ (by decide), dget_dset_ne _ _ _ _ (by decide),
    dget_dset_self]

theorem dget_update3_exp (d : Dict) (now expire : Int) (sc : String) :
    dget (dupdate d
      [("iat", .int now), ("exp", .int expire), ("scope", .str sc)]) "exp"
      = some (.int expire) := by
  show dget (dset (dset (dset d "iat" (.int now)) "exp" (.int expire))
    "scope" (.str sc)) "exp" = some (.int expire)
  rw [dget_dset_ne _ _ _ _ (by decide), dget_dset_self]

theorem dget_update3_scope (d : Dict) (now expire : Int) (sc : String) :
    dget (dupdate d
      [("iat", .int now), ("exp", .int expire), ("scope", .str sc)]) "scope"
      = some (.str sc) := by
  show dget (dset (dset (dset d "iat" (.int now)) "exp" (.int expire))
    "scope" (.str sc)) "scope" = some (.str sc)
  rw [dget_dset_self]

theorem dget_update3_other (d : Dict) (now expire : Int) (sc k : String)
    (h1 : "iat" ≠ k) (h2 : "exp" ≠ k) (h3 : "scope" ≠ k) :
    dget (dupdate d
      [("iat", .int now), ("exp", .int expire), ("scope", .str sc)]) k
      = dget d k := by
  show dget (dset (dset (dset d "iat" (.int now)) "exp" (.int expire))
    "scope" (.str sc)) k = dget d k
  rw [dget_dset_ne _ _ _ _ h3, dget_dset_ne _ _ _ _ h2,
    dget_dset_ne _ _ _ _ h1]

/-! Codec lemmas. -/

theorem jwt_decode_signed_ok (p : Dict) (key alg : String) (now e : Int)
    (hexp : dget p "exp" = some (.int e)) (hlive : ¬ e < now) :
    jwt_decode (.signed p key alg) key alg now = .ok p := by
  simp [jwt_decode, hexp, hlive]

theorem jwt_decode_signed_noexp (p : Dict) (key alg : String) (now : Int)
    (hexp : dget p "exp" = none) :
    jwt_decode (.signed p key alg) key alg now = .ok p := by
  simp [jwt_decode, hexp]

/-! Claim theorems. -/

/-- C5 counterexample: the claim says `expires-at = now + ttl` with the
default used only when no `expires_delta` is supplied, but supplying the
falsy `timedelta(0)` makes the code use the 15-minute default: the token
issued with a zero delta carries `exp = now + 900`, not `exp = now + 0`. -/
theorem create_access_token_zero_delta_uses_default :
    (create_access_token "k" "HS256" 0 [] (some 0)).1
      = jwt_encode [("iat", .int 0), ("exp", .int 900),
          ("scope", .str "access_token")] "k" "HS256" ∧
    (900 : Int) ≠ 0 + 0 := by
  decide

/-- C5 (amended): `create_access_token` issues a token whose payload
carries `scope = "access_token"`, `iat = now` and
`exp = now + ttl` where the ttl is the supplied delta except that an
absent or zero delta selects the 15-minute default; `create_refresh_token`
is identical with `scope = "refresh_token"` and a 15-day default. -/
theorem create_token_claims (key alg : String) (now : Int) (data : Dict)
    (expires_delta : Option Int) :
    (∃ p, (create_access_token key alg now data expires_delta).1
        = jwt_encode p key alg ∧
      dget p "iat" = some (.int now) ∧
      dget p "exp" = some (.int (now + ttlOr expires_delta accessDefaultTtl)) ∧
      dget p "scope" = some (.str "access_token")) ∧
    (∃ p, (create_refresh_token key alg now data expires_delta).1
        = jwt_encode p key alg ∧
      dget p "iat" = some (.int now) ∧
      dget p "exp" = some (.int (now + ttlOr expires_delta refreshDefaultTtl)) ∧
      dget p "scope" = some (.str "refresh_token")) ∧
    accessDefaultTtl = 15 * 60 ∧ refreshDefaultTtl = 15 * 24 * 60 * 60 := by
  refine ⟨⟨_, rfl, dget_update3_iat _ _ _ _, dget_update3_exp _ _ _ _,
    dget_update3_scope _ _ _ _⟩,
    ⟨_, rfl, dget_update3_iat _ _ _ _, dget_update3_exp _ _ _ _,
    dget_update3_scope _ _ _ _⟩, rfl, rfl⟩

/-- C6: decoding a token issued by `create_access_token` with ttl `t > 0`
immediately after issuance (at the issuance instant, with the configured
key and algorithm) succeeds, and the decoded payload has
`scope = "access_token"` and the same `sub` claim as the input data. -/
theorem decode_fresh_access_token (key alg : String) (now t : Int)
    (data : Dict) (ht : 0 < t) :
    ∃ p, jwt_decode (create_access_token key alg now data (some t)).1
        key alg now = .ok p ∧
      dget p "scope" = some (.str "access_token") ∧
      dget p "sub" = dget data "sub" := by
  have ht0 : ttlOr (some t) accessDefaultTtl = t := by
    have hne : t ≠ 0 := by omega
    simp [ttlOr, hne]
  refine ⟨dupdate data
      [("iat", .int now),
       ("exp", .int (now + ttlOr (some t) accessDefaultTtl)),
       ("scope", .str "access_token")],
    ?_, dget_update3_scope _ _ _ _,
    dget_update3_other _ _ _ _ _ (by decide) (by decide) (by decide)⟩
  refine jwt_decode_signed_ok _ key alg now
    (now + ttlOr (some t) accessDefaultTtl) (dget_update3_exp _ _ _ _) ?_
  rw [ht0]
  omega

/-- C6 witness: a concrete issuance with ttl 60 decoded at the issuance
instant. -/
theorem decode_fresh_access_token_witness :
    ∃ p, jwt_decode
        (create_access_token "k" "HS256" 0 [("sub", JVal.str "a@b")]
          (some 60)).1 "k" "HS256" 0 = .ok p ∧
      dget p "scope" = some (.str "access_token") ∧
      dget p "sub" = dget [("sub", JVal.str "a@b")] "sub" :=
  decode_fresh_access_token "k" "HS256" 0 60 [("sub", JVal.str "a@b")]
    (by decide)

/-- Well-formed Token Claims in the sense of the spec's data model:
`subject`, `issued-at`, `expires-at` and `scope` are present, and
`expires-at` is in the future at validation time `now`. -/
def WellFormedClaims (c : Dict) (now : Int) : Prop :=
  (∃ s, dget c "sub" = some s) ∧ (∃ i, dget c "iat" = some i) ∧
  (∃ e : Int, dget c "exp" = some (.int e) ∧ now ≤ e) ∧
  (∃ sc, dget c "scope" = some sc)

/-- C7: the Token Codec round-trips — decoding an encoded well-formed
claims mapping with the same key and algorithm reproduces the claims
exactly. -/
theorem codec_round_trip (c : Dict) (key alg : String) (now : Int)
    (h : WellFormedClaims c now) :
    jwt_decode (jwt_encode c key alg) key alg now = .ok c := by
  obtain ⟨-, -, ⟨e, hexp, hle⟩, -⟩ := h
  exact jwt_decode_signed_ok c key alg now e hexp (by omega)

/-- C7 witness: a concrete well-formed claims mapping round-trips. -/
theorem codec_round_trip_witness :
    jwt_decode (jwt_encode [("sub", JVal.str "a@b"), ("iat", JVal.int 0),
        ("exp", JVal.int 10), ("scope", JVal.str "access_token")]
        "k" "HS256") "k" "HS256" 0
      = .ok [("sub", JVal.str "a@b"), ("iat", JVal.int 0),
        ("exp", JVal.int 10), ("scope", JVal.str "access_token")] :=
  codec_round_trip _ "k" "HS256" 0
    ⟨⟨_, rfl⟩, ⟨_, rfl⟩, ⟨10, rfl, by decide⟩, ⟨_, rfl⟩⟩

/-- C8: Credential Hasher round-trip — verifying a password against its
own hash (with the salt the backend drew at hashing time) succeeds. -/
theorem verify_password_of_hash (p : String) (salt : Nat) :
    verify_password p (get_password_hash p salt) = true := by
  simp [verify_password, get_password_hash, pwd_context_verify,
    pwd_context_hash]

/-- C9: refresh-token revocation is not enforced — the outcome of
`decode_refresh_token` is the same for any two states of the stored
`User.refresh_token` column (mirrored, mismatching or cleared), and
coincides with the store-free source function, because the source reads
no database state during refresh-token validation. -/
theorem decode_refresh_token_ignores_stored_refresh_token
    (stored1 stored2 : Option String) (key alg : String) (now : Int)
    (tok : Token) :
    decode_refresh_token_with_store stored1 key alg now tok
      = decode_refresh_token_with_store stored2 key alg now tok ∧
    decode_refresh_token_with_store stored1 key alg now tok
      = decode_refresh_token key alg now tok :=
  ⟨rfl, rfl⟩

/-- C10: token issuance does not mutate its input — after
`create_access_token` or `create_refresh_token`, the caller's `data`
dict is unchanged (the `iat`, `exp` and `scope` entries go only to the
internal `data.copy()`). -/
theorem create_token_preserves_caller_dict (key alg : String) (now : Int)
    (data : Dict) (expires_delta : Option Int) :
    (create_access_token key alg now data expires_delta).2 = data ∧
    (create_refresh_token key alg now data expires_delta).2 = data :=
  ⟨rfl, rfl⟩

/-- C1: scope checking is total — `get_current_user` returns a user only
when the decoded claims carry `scope = "access_token"`,
`decode_refresh_token` returns a subject only when they carry
`scope = "refresh_token"`, and a still-live token issued by
`create_access_token` is rejected by `decode_refresh_token` with the
InvalidScope failure. -/
theorem access_refresh_scope_discipline (key alg : String)
    (now_i now_d : Int) (lookup : JVal → Option User) (tok1 tok2 : Token)
    (u : User) (e : JVal) (data : Dict) (expires_delta : Option Int)
    (h1 : get_current_user key alg now_d lookup tok1 = .ok u)
    (h2 : decode_refresh_token key alg now_d tok2 = .ok e)
    (h3 : ¬ now_i + ttlOr expires_delta accessDefaultTtl < now_d) :
    (∃ p, jwt_decode tok1 key alg now_d = .ok p ∧
      dget p "scope" = some (.str "access_token")) ∧
    (∃ p, jwt_decode tok2 key alg now_d = .ok p ∧
      dget p "scope" = some (.str "refresh_token")) ∧
    decode_refresh_token key alg now_d
        (create_access_token key alg now_i data expires_delta).1
      = .error ⟨401, "Invalid scope for token", []⟩ := by
  refine ⟨?_, ?_, ?_⟩
  · cases hdec : jwt_decode tok1 key alg now_d with
    | error err => simp [get_current_user, hdec] at h1
    | ok payload =>
      by_cases hs : dget payload "scope" = some (.str "access_token")
      · exact ⟨payload, rfl, hs⟩
      · simp [get_current_user, hdec, hs] at h1
  · cases hdec : jwt_decode tok2 key alg now_d with
    | error err => simp [decode_refresh_token, hdec] at h2
    | ok payload =>
      by_cases hs : dget payload "scope" = some (.str "refresh_token")
      · exact ⟨payload, rfl, hs⟩
      · simp [decode_refresh_token, hdec, hs] at h2
  · have hdec := jwt_decode_signed_ok
      (dupdate data
        [("iat", .int now_i),
         ("exp", .int (now_i + ttlOr expires_delta accessDefaultTtl)),
         ("scope", .str "access_token")])
      key alg now_d (now_i + ttlOr expires_delta accessDefaultTtl)
      (dget_update3_exp _ _ _ _) h3
    simp [decode_refresh_token, create_access_token, jwt_encode, hdec,
      dget_update3_scope]

/-- C1 witness: a valid access token resolving a user, a valid refresh
token resolving a subject, and a still-live freshly issued access token
rejected by `decode_refresh_token` with the InvalidScope failure. -/
theorem access_refresh_scope_discipline_witness :
    (∃ p, jwt_decode (Token.signed
        [("scope", JVal.str "access_token"), ("sub", JVal.str "a@b")]
        "k" "HS256") "k" "HS256" 0 = .ok p ∧
      dget p "scope" = some (.str "access_token")) ∧
    (∃ p, jwt_decode (Token.signed
        [("scope", JVal.str "refresh_token"), ("sub", JVal.str "a@b")]
        "k" "HS256") "k" "HS256" 0 = .ok p ∧
      dget p "scope" = some (.str "refresh_token")) ∧
    decode_refresh_token "k" "HS256" 0
        (create_access_token "k" "HS256" 0 [] none).1
      = .error ⟨401, "Invalid scope for token", []⟩ :=
  access_refresh_scope_discipline "k" "HS256" 0 0
    (fun _ => some ⟨1, "u", "a@b", "pw", none⟩) _ _
    ⟨1, "u", "a@b", "pw", none⟩ (JVal.str "a@b") [] none
    (by decide) (by decide) (by decide)

/-- C2: `get_current_user` returns the looked-up user exactly when the
token decodes with `scope = "access_token"`, a present `sub`, and a
successful lookup; in every other case (decode failure, wrong scope,
absent `sub`, lookup miss) it fails with the single 401
`credentials_exception`. -/
theorem get_current_user_characterization (key alg : String) (now : Int)
    (lookup : JVal → Option User) (tok : Token) :
    (∀ u, get_current_user key alg now lookup tok = .ok u ↔
      ∃ p e, jwt_decode tok key alg now = .ok p ∧
        dget p "scope" = some (.str "access_token") ∧
        dget p "sub" = some e ∧ lookup e = some u) ∧
    (get_current_user key alg now lookup tok
        = .error credentials_exception ↔
      (∃ err, jwt_decode tok key alg now = .error err) ∨
      (∃ p, jwt_decode tok key alg now = .ok p ∧
        dget p "scope" ≠ some (.str "access_token")) ∨
      (∃ p, jwt_decode tok key alg now = .ok p ∧
        dget p "scope" = some (.str "access_token") ∧
        dget p "sub" = none) ∨
      (∃ p e, jwt_decode tok key alg now = .ok p ∧
        dget p "scope" = some (.str "access_token") ∧
        dget p "sub" = some e ∧ lookup e = none)) := by
  cases hdec : jwt_decode tok key alg now with
  | error err =>
    constructor
    · intro u; simp [get_current_user, hdec]
    · simp [get_current_user, hdec]
  | ok payload =>
    by_cases hs : dget payload "scope" = some (.str "access_token")
    · cases hsub : dget payload "sub" with
      | none =>
        constructor
        · intro u; simp [get_current_user, hdec, hs, hsub]
        · simp [get_current_user, hdec, hs, hsub]
      | some e0 =>
        cases hl : lookup e0 with
        | none =>
          constructor
          · intro u; simp [get_current_user, hdec, hs, hsub, hl]
          · simp [get_current_user, hdec, hs, hsub, hl]
        | some u0 =>
          constructor
          · intro u; simp [get_current_user, hdec, hs, hsub, hl]
          · simp [get_current_user, hdec, hs, hsub, hl,
              credentials_exception]
    · constructor
      · intro u; simp [get_current_user, hdec, hs]
      · simp [get_current_user, hdec, hs]

/-- C3 counterexample: the claim makes a decode failure and an absent
`sub` claim the same `Malformed` failure, but the code raises two
different exceptions for them — an undecodable token yields detail
"Could not validate credentials" while a decodable refresh token without
`sub` yields detail "Invalid token payload". -/
theorem decode_refresh_failures_not_uniform :
    decode_refresh_token "k" "HS256" 0 (.garbage "x")
      = .error ⟨401, "Could not validate credentials", []⟩ ∧
    decode_refresh_token "k" "HS256" 0
        (.signed [("scope", JVal.str "refresh_token")] "k" "HS256")
      = .error ⟨401, "Invalid token payload", []⟩ ∧
    (HTTPException.mk 401 "Could not validate credentials" []
      ≠ ⟨401, "Invalid token payload", []⟩) := by
  decide

/-- C3 (amended): `decode_refresh_token` returns the `sub` claim when the
token decodes with `scope = "refresh_token"` and `sub` present; fails
with the 401 "Invalid scope for token" exception when it decodes with any
other scope; fails with the 401 "Invalid token payload" exception when it
decodes with the right scope but no `sub`; and fails with the distinct
401 "Could not validate credentials" exception when decoding itself
fails. -/
theorem decode_refresh_token_characterization (key alg : String)
    (now : Int) (tok : Token) :
    (∀ e, decode_refresh_token key alg now tok = .ok e ↔
      ∃ p, jwt_decode tok key alg now = .ok p ∧
        dget p "scope" = some (.str "refresh_token") ∧
        dget p "sub" = some e) ∧
    (decode_refresh_token key alg now tok
        = .error ⟨401, "Invalid scope for token", []⟩ ↔
      ∃ p, jwt_decode tok key alg now = .ok p ∧
        dget p "scope" ≠ some (.str "refresh_token")) ∧
    (decode_refresh_token key alg now tok
        = .error ⟨401, "Invalid token payload", []⟩ ↔
      ∃ p, jwt_decode tok key alg now = .ok p ∧
        dget p "scope" = some (.str "refresh_token") ∧
        dget p "sub" = none) ∧
    (decode_refresh_token key alg now tok
        = .error ⟨401, "Could not validate credentials", []⟩ ↔
      ∃ err, jwt_decode tok key alg now = .error err) := by
  cases hdec : jwt_decode tok key alg now with
  | error err =>
    refine ⟨fun e => ?_, ?_, ?_, ?_⟩ <;>
      simp [decode_refresh_token, hdec]
  | ok payload =>
    by_cases hs : dget payload "scope" = some (.str "refresh_token")
    · cases hsub : dget payload "sub" with
      | none =>
        refine ⟨fun e => ?_, ?_, ?_, ?_⟩ <;>
          simp [decode_refresh_token, hdec, hs, hsub]
      | some e0 =>
        refine ⟨fun e => ?_, ?_, ?_, ?_⟩ <;>
          simp [decode_refresh_token, hdec, hs, hsub]
    · refine ⟨fun e => ?_, ?_, ?_, ?_⟩ <;>
        simp [decode_refresh_token, hdec, hs]

/-- Every failure of `get_current_user` carries the one
`credentials_exception`. -/
theorem get_current_user_error_eq (key alg : String) (now : Int)
    (lookup : JVal → Option User) (tok : Token) (e : HTTPException)
    (h : get_current_user key alg now lookup tok = .error e) :
    e = credentials_exception := by
  cases hdec : jwt_decode tok key alg now with
  | error err =>
    simp [get_current_user, hdec] at h
    exact h.symm
  | ok payload =>
    by_cases hs : dget payload "scope" = some (.str "access_token")
    · cases hsub : dget payload "sub" with
      | none =>
        simp [get_current_user, hdec, hs, hsub] at h
        exact h.symm
      | some e0 =>
        cases hl : lookup e0 with
        | none =>
          simp [get_current_user, hdec, hs, hsub, hl] at h
          exact h.symm
        | some u0 => simp [get_current_user, hdec, hs, hsub, hl] at h
    · simp [get_current_user, hdec, hs] at h
      exact h.symm

/-- Every failure of `decode_refresh_token` carries status 401. -/
theorem decode_refresh_token_error_status (key alg : String) (now : Int)
    (tok : Token) (e : HTTPException)
    (h : decode_refresh_token key alg now tok = .error e) :
    e.status_code = 401 := by
  cases hdec : jwt_decode tok key alg now with
  | error err =>
    simp [decode_refresh_token, hdec] at h
    rw [← h]
  | ok payload =>
    by_cases hs : dget payload "scope" = some (.str "refresh_token")
    · cases hsub : dget payload "sub" with
      | none =>
        simp [decode_refresh_token, hdec, hs, hsub] at h
        rw [← h]
      | some e0 => simp [decode_refresh_token, hdec, hs, hsub] at h
    · simp [decode_refresh_token, hdec, hs] at h
      rw [← h]

/-- C4 counterexample: two failing inputs of `decode_refresh_token`
produce different externally visible payloads — an undecodable token
fails with detail "Could not validate credentials" while a valid access
token presented at the refresh call site fails with detail
"Invalid scope for token" — so failure outcomes are not all identical. -/
theorem auth_failure_payloads_differ :
    decode_refresh_token "k" "HS256" 0 (.garbage "x")
      = .error ⟨401, "Could not validate credentials", []⟩ ∧
    decode_refresh_token "k" "HS256" 0
        (.signed [("scope", JVal.str "access_token"),
          ("sub", JVal.str "a@b")] "k" "HS256")
      = .error ⟨401, "Invalid scope for token", []⟩ ∧
    (HTTPException.mk 401 "Could not validate credentials" []
      ≠ ⟨401, "Invalid scope for token", []⟩) := by
  decide

/-- C4 (amended): all failures of `get_current_user` are pairwise
identical (always the one 401 `credentials_exception`), and every
failure of either resolver carries status 401; only
`decode_refresh_token`'s failure detail strings differ by internal
reason. -/
theorem auth_failures_uniform_status (key alg : String) (now : Int)
    (lookup : JVal → Option User) (tok1 tok2 tok3 : Token)
    (e1 e2 f1 : HTTPException)
    (h1 : get_current_user key alg now lookup tok1 = .error e1)
    (h2 : get_current_user key alg now lookup tok2 = .error e2)
    (h3 : decode_refresh_token key alg now tok3 = .error f1) :
    e1 = e2 ∧ e1 = credentials_exception ∧
    e1.status_code = 401 ∧ f1.status_code = 401 := by
  have e1c := get_current_user_error_eq key alg now lookup tok1 e1 h1
  have e2c := get_current_user_error_eq key alg now lookup tok2 e2 h2
  have f1s := decode_refresh_token_error_status key alg now tok3 f1 h3
  subst e1c
  subst e2c
  exact ⟨rfl, rfl, rfl, f1s⟩

/-- C4 witness: three concrete failing calls (expired-or-tampered inputs
modelled by an undecodable token) with identical 401 outcomes. -/
theorem auth_failures_uniform_status_witness :
    credentials_exception = credentials_exception ∧
    credentials_exception = credentials_exception ∧
    credentials_exception.status_code = 401 ∧
    (HTTPException.mk 401 "Could not validate credentials" []).status_code
      = 401 :=
  auth_failures_uniform_status "k" "HS256" 0 (fun _ => none)
    (.garbage "x") (.garbage "y") (.garbage "x")
    credentials_exception credentials_exception
    ⟨401, "Could not validate credentials", []⟩
    (by decide) (by decide) (by decide)

end HW12
